import Mathlib

/-!
Shallow embedding of the SysMedic WebSocket example clients:
`examples/websocket_client.py` (class `SysMedicClient`),
`examples/websocket_client_interactive.py` (class `SysMedicInteractiveClient`)
and `scripts/test_real_metrics.py` (class `MetricsTracker`).

Timers (`threading.Timer`) are modelled explicitly: creating a timer
appends a fresh identifier to a list of live timers; `cancel()` removes
the identifier; overwriting a Python reference does not cancel the timer.
Wall-clock times and delays are rationals.  The Python float expression
`min(5 * 1.5 ** k, 30)` is exact binary arithmetic for every attempt
count that can occur (numerators below 2^53), so rational arithmetic
with `3/2` models it exactly.
-/

/-- State of `SysMedicClient` from `examples/websocket_client.py`,
restricted to the fields the connection lifecycle logic reads or
writes.  Field defaults follow `__init__` (`options.get(...)` defaults);
timer references start as `None` and no timer is live. -/
structure SysMedicClient where
  connected : Bool := false
  reconnect_attempts : ℕ := 0
  max_reconnect_attempts : ℕ := 10
  reconnect_interval : ℚ := 5
  ping_interval : ℚ := 30
  pong_timeout : ℚ := 10
  last_pong : ℚ := 0
  ping_timer : Option ℕ := none
  pong_timer : Option ℕ := none
  reconnect_timer : Option ℕ := none
  livePingTimers : List ℕ := []
  livePongTimers : List ℕ := []
  liveReconnectTimers : List (ℕ × ℚ) := []
  nextTimerId : ℕ := 0
  ws : Bool := false
deriving DecidableEq

/-- Caller-visible callback invocations of `SysMedicClient`
(`on_connect`, `on_disconnect`, `on_reconnecting(attempt, delay)`).
Log lines (`logger.info` / `logger.error`) are not caller callbacks and
are not events. -/
inductive ClientEvent where
  | onConnect : ClientEvent
  | onDisconnect : ClientEvent
  | onReconnecting (attempt : ℕ) (delay : ℚ) : ClientEvent
deriving DecidableEq

/-- Model of `SysMedicClient.cleanup`: cancels the ping and pong timers
(setting the references to `None` and removing the live timers) and
drops the websocket handle.  The reconnect timer is untouched. -/
def SysMedicClient.cleanup (s : SysMedicClient) : SysMedicClient :=
  let s1 := match s.ping_timer with
    | some t => { s with ping_timer := none, livePingTimers := s.livePingTimers.erase t }
    | none => s
  let s2 := match s1.pong_timer with
    | some t => { s1 with pong_timer := none, livePongTimers := s1.livePongTimers.erase t }
    | none => s1
  { s2 with ws := false }

/-- Model of `SysMedicClient.connect`: cleans up any existing
connection and starts a fresh websocket handle.  (The exception branch
that calls `schedule_reconnect` on a failure to even create the socket
is not modelled; connection failures surface through `_on_close`.) -/
def SysMedicClient.connect (s : SysMedicClient) : SysMedicClient :=
  let s1 := s.cleanup
  { s1 with ws := true }

/-- Model of `SysMedicClient.schedule_reconnect`.  If the attempt
counter has reached the ceiling it only logs and returns (no event, no
timer).  Otherwise it increments the counter, computes
`delay = min(reconnect_interval * 1.5 ** (attempts - 1), 30)`, invokes
the `on_reconnecting` callback, and creates a new `threading.Timer`,
overwriting the stored reference without cancelling any prior timer. -/
def SysMedicClient.schedule_reconnect (s : SysMedicClient) :
    SysMedicClient × List ClientEvent :=
  if s.max_reconnect_attempts ≤ s.reconnect_attempts then (s, [])
  else
    let attempts := s.reconnect_attempts + 1
    let delay := min (s.reconnect_interval * (3 / 2 : ℚ) ^ (attempts - 1)) 30
    let tid := s.nextTimerId
    ({ s with
        reconnect_attempts := attempts,
        reconnect_timer := some tid,
        liveReconnectTimers := s.liveReconnectTimers ++ [(tid, delay)],
        nextTimerId := tid + 1 },
     [ClientEvent.onReconnecting attempts delay])

/-- Model of `SysMedicClient.reconnect`: `cleanup()` then `connect()`. -/
def SysMedicClient.reconnect (s : SysMedicClient) : SysMedicClient :=
  s.cleanup.connect

/-- Model of `SysMedicClient._on_close(ws, close_status_code, close_msg)`:
marks the client disconnected, cleans up (stopping the heartbeat
timers), fires `on_disconnect`, and schedules a reconnect unless the
close carried the clean status code 1000. -/
def SysMedicClient.on_close (s : SysMedicClient) (close_status_code : Option ℕ) :
    SysMedicClient × List ClientEvent :=
  let s1 := { s with connected := false }
  let s2 := s1.cleanup
  if close_status_code ≠ some 1000 then
    let r := s2.schedule_reconnect
    (r.1, ClientEvent.onDisconnect :: r.2)
  else
    (s2, [ClientEvent.onDisconnect])

/-- Model of the inner `check_pong_timeout` of
`SysMedicClient.start_ping_monitoring`, run at wall-clock time `now`.
Returns the new state and whether a reconnect was triggered (the
`time_since_pong > pong_timeout + ping_interval` branch).  In the
other branch the check re-arms itself with a fresh pong timer. -/
def SysMedicClient.check_pong_timeout (s : SysMedicClient) (now : ℚ) :
    SysMedicClient × Bool :=
  if s.connected then
    if s.pong_timeout + s.ping_interval < now - s.last_pong then
      (s.reconnect, true)
    else
      let pid := s.nextTimerId
      ({ s with
          pong_timer := some pid,
          livePongTimers := s.livePongTimers ++ [pid],
          nextTimerId := pid + 1 }, false)
  else (s, false)

/-- The reconnect delay of attempt `n` with the default options:
`min(5 * 1.5 ** (n - 1), 30)`. -/
def delayFor (n : ℕ) : ℚ := min ((5 : ℚ) * (3 / 2) ^ (n - 1)) 30

/-- Decimal rendering of a natural number, as Python's string
formatting of a non-negative `int` produces. -/
def decRepr (n : ℕ) : String :=
  if n = 0 then "0" else ⟨((Nat.digits 10 n).map Nat.digitChar).reverse⟩

/-- Value of a decimal digit character (left inverse of
`Nat.digitChar` on digits). -/
def charToDigit (ch : Char) : ℕ := ch.toNat - '0'.toNat

/-- Decode a most-significant-first decimal digit string. -/
def decodeDigits (l : List Char) : ℕ :=
  Nat.ofDigits 10 ((l.map charToDigit).reverse)

/-- Recover the counter component from a generated request id
`req_<counter>_<time>`: skip the four characters of `req_` and read
digits up to the separating underscore. -/
def extractCounter (s : String) : ℕ :=
  decodeDigits ((s.data.drop 4).takeWhile (fun ch => ch != '_'))

/-- Value stored in `SysMedicInteractiveClient.pending_requests` for a
request id: the request `type` and the send `timestamp`. -/
structure RequestInfo where
  reqType : String
  timestamp : ℚ
deriving DecidableEq

/-- State of `SysMedicInteractiveClient` from
`examples/websocket_client_interactive.py` (the fields its request
correlation and close handling read or write).  `pending_requests` is
the insertion-ordered dict, modelled as an association list with
distinct keys. -/
structure SysMedicInteractiveClient where
  running : Bool := false
  pending_requests : List (String × RequestInfo) := []
  request_counter : ℕ := 0
deriving DecidableEq

/-- Python `dict` lookup (`key in d` / `d[key]`) on the association
list. -/
def dictGet : List (String × RequestInfo) → String → Option RequestInfo
  | [], _ => none
  | (k, v) :: rest, key => if k = key then some v else dictGet rest key

/-- Python `dict.pop(key)` on the association list: removes the entry
with the given key (dict keys are distinct). -/
def dictPop : List (String × RequestInfo) → String → List (String × RequestInfo)
  | [], _ => []
  | (k, v) :: rest, key => if k = key then rest else (k, v) :: dictPop rest key

/-- Model of `SysMedicInteractiveClient.generate_request_id`, invoked
at integer wall-clock time `now`: increments `request_counter` and
returns `f"req_{self.request_counter}_{int(time.time())}"`. -/
def SysMedicInteractiveClient.generate_request_id
    (s : SysMedicInteractiveClient) (now : ℕ) :
    SysMedicInteractiveClient × String :=
  let c := s.request_counter + 1
  ({ s with request_counter := c }, "req_" ++ decRepr c ++ "_" ++ decRepr now)

/-- Inbound message envelope as read by
`SysMedicInteractiveClient.handle_message`: the `type` tag (absent ⇒
`'unknown'`), the optional `request_id`, and the payload (opaque
here). -/
structure InMessage where
  type : Option String
  request_id : Option String
  data : String
deriving DecidableEq

/-- A single routing outcome of `handle_message`: either the response
path for a pending request (pop plus `display_response_data`), or one
of the typed event channels. -/
inductive Delivery where
  | correlator (request_id : String) (reqType : String) (msgType : String) (data : String)
  | welcomeEv (data : String)
  | systemUpdateEv (data : String)
  | alertEv (data : String)
  | errorEv (data : String)
  | unknownEv (msgType : String) (data : String)
deriving DecidableEq

/-- The guard `if request_id and request_id in self.pending_requests`
of `handle_message`: `Some (rid, info)` when the message carries a
truthy (non-empty) correlation id present in the pending table. -/
def requestIdMatch (pending : List (String × RequestInfo)) (m : InMessage) :
    Option (String × RequestInfo) :=
  match m.request_id with
  | none => none
  | some rid =>
    if rid = "" then none
    else
      match dictGet pending rid with
      | some info => some (rid, info)
      | none => none

/-- Model of `SysMedicInteractiveClient.handle_message`: a response
carrying a pending correlation id pops its entry and is displayed as
the response of that request (then `return`); otherwise the message is
classified by its `type` tag into the welcome / system_update / alert /
error / unknown channels and the pending table is untouched. -/
def handle_message (pending : List (String × RequestInfo)) (m : InMessage) :
    List (String × RequestInfo) × List Delivery :=
  let msg_type := m.type.getD "unknown"
  match requestIdMatch pending m with
  | some (rid, info) =>
    (dictPop pending rid, [Delivery.correlator rid info.reqType msg_type m.data])
  | none =>
    let d : Delivery :=
      if msg_type = "welcome" then Delivery.welcomeEv m.data
      else if msg_type = "system_update" then Delivery.systemUpdateEv m.data
      else if msg_type = "alert" then Delivery.alertEv m.data
      else if msg_type = "error" then Delivery.errorEv m.data
      else Delivery.unknownEv msg_type m.data
    (pending, [d])

/-- Model of `SysMedicInteractiveClient.on_close`: prints the close
code and sets `running = False`.  Nothing else happens: in particular
`pending_requests` is not touched and no rejection is delivered. -/
def SysMedicInteractiveClient.on_close (s : SysMedicInteractiveClient)
    (_close_status_code : Option ℕ) : SysMedicInteractiveClient × List Delivery :=
  ({ s with running := false }, [])

/-- One entry of `MetricsTracker.metrics_history` from
`scripts/test_real_metrics.py`: a receipt timestamp and the payload. -/
structure MetricsEntry where
  timestamp : ℚ
  data : String
deriving DecidableEq

/-- State of `MetricsTracker`. -/
structure MetricsTracker where
  metrics_history : List MetricsEntry := []
  last_update : Option ℚ := none
deriving DecidableEq

/-- Model of `MetricsTracker.add_metrics`, invoked at time `now`:
appends the new entry, records `last_update`, and pops the oldest entry
when the history exceeds 10 entries. -/
def MetricsTracker.add_metrics (t : MetricsTracker) (now : ℚ) (data : String) :
    MetricsTracker :=
  let h := t.metrics_history ++ [⟨now, data⟩]
  { metrics_history := if 10 < h.length then h.drop 1 else h,
    last_update := some now }

theorem takeWhile_underscore (l1 l2 : List Char) (h : ∀ ch ∈ l1, ch ≠ '_') :
    (l1 ++ '_' :: l2).takeWhile (fun ch => ch != '_') = l1 := by
  induction l1 with
  | nil => simp [List.takeWhile]
  | cons a t ih =>
    have ha : (a != '_') = true := by
      simpa using h a (List.mem_cons_self a t)
    simp only [List.cons_append, List.takeWhile_cons, ha, if_true]
    rw [ih (fun ch hch => h ch (List.mem_cons_of_mem a hch))]

theorem decRepr_no_underscore (n : ℕ) : ∀ ch ∈ (decRepr n).data, ch ≠ '_' := by
  intro ch hch
  unfold decRepr at hch
  by_cases h : n = 0
  · rw [h] at hch
    simp at hch
    rw [hch]; decide
  · rw [if_neg h] at hch
    simp only [String.data] at hch
    rw [List.mem_reverse, List.mem_map] at hch
    obtain ⟨d, hd, hchd⟩ := hch
    have hlt : d < 10 := Nat.digits_lt_base (by norm_num) hd
    rw [← hchd]
    interval_cases d <;> decide

theorem decode_decRepr (n : ℕ) : decodeDigits (decRepr n).data = n := by
  unfold decRepr
  by_cases h : n = 0
  · rw [h]; simp [decodeDigits, charToDigit, Nat.ofDigits]
  · rw [if_neg h]
    show decodeDigits (((Nat.digits 10 n).map Nat.digitChar).reverse) = n
    unfold decodeDigits
    rw [List.map_reverse, List.reverse_reverse, List.map_map]
    have hid : (Nat.digits 10 n).map (charToDigit ∘ Nat.digitChar) = Nat.digits 10 n := by
      rw [List.map_congr_left, List.map_id]
      intro a ha
      have := Nat.digits_lt_base (by norm_num) ha
      interval_cases a <;> rfl
    rw [hid, Nat.ofDigits_digits]

theorem extract_reqId (c t : ℕ) :
    extractCounter ("req_" ++ decRepr c ++ "_" ++ decRepr t) = c := by
  unfold extractCounter
  have hdata : ("req_" ++ decRepr c ++ "_" ++ decRepr t).data
      = 'r' :: 'e' :: 'q' :: '_' :: ((decRepr c).data ++ '_' :: (decRepr t).data) := by
    simp [String.data_append]
  rw [hdata]
  show decodeDigits
      ((((decRepr c).data ++ '_' :: (decRepr t).data)).takeWhile (fun ch => ch != '_')) = c
  rw [takeWhile_underscore _ _ (decRepr_no_underscore c)]
  exact decode_decRepr c

theorem schedule_reconnect_eq (s : SysMedicClient)
    (h : s.reconnect_attempts < s.max_reconnect_attempts) :
    s.schedule_reconnect
      = ({ s with
            reconnect_attempts := s.reconnect_attempts + 1,
            reconnect_timer := some s.nextTimerId,
            liveReconnectTimers := s.liveReconnectTimers
              ++ [(s.nextTimerId,
                   min (s.reconnect_interval * (3 / 2 : ℚ) ^ s.reconnect_attempts) 30)],
            nextTimerId := s.nextTimerId + 1 },
         [ClientEvent.onReconnecting (s.reconnect_attempts + 1)
            (min (s.reconnect_interval * (3 / 2 : ℚ) ^ s.reconnect_attempts) 30)]) := by
  unfold SysMedicClient.schedule_reconnect
  rw [if_neg (by omega)]
  rfl

theorem schedule_reconnect_stop (s : SysMedicClient)
    (h : s.max_reconnect_attempts ≤ s.reconnect_attempts) :
    s.schedule_reconnect = (s, []) := by
  unfold SysMedicClient.schedule_reconnect
  rw [if_pos h]

theorem cleanup_liveReconnectTimers (s : SysMedicClient) :
    s.cleanup.liveReconnectTimers = s.liveReconnectTimers := by
  cases hping : s.ping_timer <;> cases hpong : s.pong_timer <;>
    simp [SysMedicClient.cleanup, hping, hpong]

theorem cleanup_nextTimerId (s : SysMedicClient) :
    s.cleanup.nextTimerId = s.nextTimerId := by
  cases hping : s.ping_timer <;> cases hpong : s.pong_timer <;>
    simp [SysMedicClient.cleanup, hping, hpong]

theorem cleanup_reconnect_attempts (s : SysMedicClient) :
    s.cleanup.reconnect_attempts = s.reconnect_attempts := by
  cases hping : s.ping_timer <;> cases hpong : s.pong_timer <;>
    simp [SysMedicClient.cleanup, hping, hpong]

theorem cleanup_max_reconnect_attempts (s : SysMedicClient) :
    s.cleanup.max_reconnect_attempts = s.max_reconnect_attempts := by
  cases hping : s.ping_timer <;> cases hpong : s.pong_timer <;>
    simp [SysMedicClient.cleanup, hping, hpong]

theorem cleanup_reconnect_interval (s : SysMedicClient) :
    s.cleanup.reconnect_interval = s.reconnect_interval := by
  cases hping : s.ping_timer <;> cases hpong : s.pong_timer <;>
    simp [SysMedicClient.cleanup, hping, hpong]

theorem cleanup_connected (s : SysMedicClient) :
    s.cleanup.connected = s.connected := by
  cases hping : s.ping_timer <;> cases hpong : s.pong_timer <;>
    simp [SysMedicClient.cleanup, hping, hpong]

theorem cleanup_ping_timer (s : SysMedicClient) : s.cleanup.ping_timer = none := by
  cases hping : s.ping_timer <;> cases hpong : s.pong_timer <;>
    simp [SysMedicClient.cleanup, hping, hpong]

theorem cleanup_pong_timer (s : SysMedicClient) : s.cleanup.pong_timer = none := by
  cases hping : s.ping_timer <;> cases hpong : s.pong_timer <;>
    simp [SysMedicClient.cleanup, hping, hpong]

theorem requestIdMatch_eq_some (pending : List (String × RequestInfo)) (m : InMessage)
    (rid : String) (info : RequestInfo)
    (h : requestIdMatch pending m = some (rid, info)) :
    m.request_id = some rid ∧ rid ≠ "" ∧ dictGet pending rid = some info := by
  unfold requestIdMatch at h
  cases hid : m.request_id with
  | none => rw [hid] at h; exact absurd h (by simp)
  | some r =>
    rw [hid] at h
    dsimp only at h
    by_cases hr : r = ""
    · rw [if_pos hr] at h; exact absurd h (by simp)
    · rw [if_neg hr] at h
      cases hg : dictGet pending r with
      | none => rw [hg] at h; exact absurd h (by simp)
      | some i =>
        rw [hg] at h
        dsimp only at h
        simp only [Option.some.injEq, Prod.mk.injEq] at h
        obtain ⟨h1, h2⟩ := h
        subst h1; subst h2
        exact ⟨rfl, hr, hg⟩

theorem dictGet_eq_none_of_not_mem (l : List (String × RequestInfo)) (key : String)
    (h : key ∉ l.map Prod.fst) : dictGet l key = none := by
  induction l with
  | nil => rfl
  | cons a rest ih =>
    simp only [List.map_cons, List.mem_cons] at h
    push_neg at h
    unfold dictGet
    rw [if_neg (fun he => h.1 he.symm)]
    exact ih h.2

theorem dictGet_dictPop (l : List (String × RequestInfo)) (key : String)
    (h : (l.map Prod.fst).Nodup) : dictGet (dictPop l key) key = none := by
  induction l with
  | nil => rfl
  | cons a rest ih =>
    simp only [List.map_cons, List.nodup_cons] at h
    unfold dictPop
    by_cases he : a.1 = key
    · rw [if_pos he]
      exact dictGet_eq_none_of_not_mem rest key (he ▸ h.1)
    · rw [if_neg he]
      unfold dictGet
      rw [if_neg he]
      exact ih h.2

theorem handle_message_no_match (pending : List (String × RequestInfo)) (m : InMessage)
    (h : requestIdMatch pending m = none) :
    (handle_message pending m).1 = pending
      ∧ ∀ rid ty mt d, Delivery.correlator rid ty mt d ∉ (handle_message pending m).2 := by
  unfold handle_message
  rw [h]
  refine ⟨rfl, ?_⟩
  intro rid ty mt d
  dsimp only
  split_ifs <;> simp

/-- C1: for every attempt count n with 1 ≤ n ≤ max_attempts, the delay
computed by `schedule_reconnect` when scheduling attempt n (the state
holds n - 1 prior attempts) equals min(5 * 1.5^(n-1), 30) under the
default options, and the delay sequence is monotonically non-decreasing
in n (hence non-decreasing until it reaches the clamp 30). -/
theorem c1_backoff_delay (n : ℕ) (s : SysMedicClient)
    (h1 : 1 ≤ n) (h2 : n ≤ 10)
    (hatt : s.reconnect_attempts = n - 1)
    (hmax : s.max_reconnect_attempts = 10)
    (hbase : s.reconnect_interval = 5) :
    s.schedule_reconnect.2 = [ClientEvent.onReconnecting n (delayFor n)]
      ∧ ∀ m : ℕ, 1 ≤ m → delayFor m ≤ delayFor (m + 1) := by
  constructor
  · rw [schedule_reconnect_eq s (by omega)]
    have hn : n - 1 + 1 = n := by omega
    rw [hatt, hbase, hn]
    rfl
  · intro m hm
    unfold delayFor
    apply min_le_min _ le_rfl
    apply mul_le_mul_of_nonneg_left _ (by norm_num : (0 : ℚ) ≤ 5)
    apply pow_le_pow_right₀ (by norm_num : (1 : ℚ) ≤ 3 / 2)
    omega

/-- C1 witness: scheduling attempt 6 from the default state with five
failed attempts emits the on_reconnecting callback with delay
min(5 * 1.5^5, 30) = 30. -/
theorem c1_backoff_delay_witness :
    (SysMedicClient.schedule_reconnect { reconnect_attempts := 5 }).2
      = [ClientEvent.onReconnecting 6 (delayFor 6)] :=
  (c1_backoff_delay 6 { reconnect_attempts := 5 }
    (by norm_num) (by norm_num) rfl rfl rfl).1

/-- C4 counterexample: with the attempt counter at the default ceiling
10, `schedule_reconnect` emits no caller-visible event at all (in
particular no ReconnectExhausted report) and leaves the state
untouched; the claim announces a reported event. -/
theorem c4_exhausted_no_event_cex :
    (SysMedicClient.schedule_reconnect { reconnect_attempts := 10 }).2 = []
      ∧ (SysMedicClient.schedule_reconnect { reconnect_attempts := 10 }).1
          = { reconnect_attempts := 10 } :=
  ⟨rfl, rfl⟩

/-- C4 amended: once the attempt counter has reached
max_reconnect_attempts, `schedule_reconnect` is a complete no-op apart
from a log line: the state (counter, timers, live timer list) is
unchanged and no caller event fires, so no reconnect timer is ever
scheduled afterwards; no DISCONNECTED transition or ReconnectExhausted
event is delivered to the caller. -/
theorem c4_exhausted_noop (s : SysMedicClient)
    (h : s.max_reconnect_attempts ≤ s.reconnect_attempts) :
    s.schedule_reconnect = (s, []) := by
  unfold SysMedicClient.schedule_reconnect
  rw [if_pos h]

/-- C4 witness: a client past the ceiling stays unchanged. -/
theorem c4_exhausted_noop_witness :
    SysMedicClient.schedule_reconnect { reconnect_attempts := 12 }
      = ({ reconnect_attempts := 12 }, []) :=
  c4_exhausted_noop { reconnect_attempts := 12 } (by norm_num)

/-- C7 counterexample: scheduling a reconnect while a previous
reconnect timer (id 0, delay 5) is still pending does not cancel it:
afterwards two reconnect timers are live, refuting the at-most-one
outstanding-reconnect-task guarantee. -/
theorem c7_two_timers_cex :
    (SysMedicClient.schedule_reconnect
        { reconnect_timer := some 0,
          liveReconnectTimers := [(0, 5)],
          nextTimerId := 1 }).1.liveReconnectTimers = [(0, 5), (1, 5)]
      ∧ ((SysMedicClient.schedule_reconnect
        { reconnect_timer := some 0,
          liveReconnectTimers := [(0, 5)],
          nextTimerId := 1 }).1.liveReconnectTimers).length = 2 := by
  refine ⟨?_, ?_⟩ <;> · rw [schedule_reconnect_eq _ (by norm_num)]; norm_num

/-- C7 amended: `schedule_reconnect` (below the attempt ceiling) only
overwrites the stored timer reference with the fresh timer and appends
the fresh timer to the live timers; any previously pending reconnect
timer stays live (it is cancelled only by `_on_open` or
`disconnect`), so two reconnect timers can be outstanding at once. -/
theorem c7_schedule_appends (s : SysMedicClient)
    (h : s.reconnect_attempts < s.max_reconnect_attempts) :
    (s.schedule_reconnect).1.liveReconnectTimers
        = s.liveReconnectTimers
            ++ [(s.nextTimerId,
                 min (s.reconnect_interval * (3 / 2 : ℚ) ^ s.reconnect_attempts) 30)]
      ∧ (s.schedule_reconnect).1.reconnect_timer = some s.nextTimerId := by
  rw [schedule_reconnect_eq s h]
  exact ⟨rfl, rfl⟩

/-- C7 witness: from the default fresh state, scheduling appends the
single new timer (id 0, delay 5) and stores its reference. -/
theorem c7_schedule_appends_witness :
    (SysMedicClient.schedule_reconnect {}).1.reconnect_timer = some 0 :=
  (c7_schedule_appends {} (by norm_num)).2

/-- C8 counterexample: a transport close with the non-normal code 1006
arriving when the attempt counter already equals the ceiling schedules
no reconnect at all (live reconnect timers stay empty and no
on_reconnecting callback fires), refuting the unconditional
"non-normal code implies a reconnect is scheduled". -/
theorem c8_exhausted_close_cex :
    (SysMedicClient.on_close
        { connected := false, reconnect_attempts := 10 } (some 1006)).1.liveReconnectTimers = []
      ∧ (SysMedicClient.on_close
        { connected := false, reconnect_attempts := 10 } (some 1006)).2
          = [ClientEvent.onDisconnect] :=
  ⟨rfl, rfl⟩

/-- C8 amended: `_on_close` always marks the client disconnected and
cancels both heartbeat timers; with the normal code 1000 no reconnect
timer is created and only on_disconnect fires; with any other code a
reconnect is scheduled (new live timer with the backoff delay plus the
on_reconnecting callback) provided the attempt counter has not yet
reached max_reconnect_attempts. -/
theorem c8_close_behaviour (s : SysMedicClient) (code : Option ℕ) :
    (s.on_close code).1.connected = false
      ∧ (s.on_close code).1.ping_timer = none
      ∧ (s.on_close code).1.pong_timer = none
      ∧ (code = some 1000 →
          (s.on_close code).1.liveReconnectTimers = s.liveReconnectTimers
            ∧ (s.on_close code).2 = [ClientEvent.onDisconnect])
      ∧ (code ≠ some 1000 → s.reconnect_attempts < s.max_reconnect_attempts →
          (s.on_close code).1.liveReconnectTimers
              = s.liveReconnectTimers
                  ++ [(s.nextTimerId,
                       min (s.reconnect_interval * (3 / 2 : ℚ) ^ s.reconnect_attempts) 30)]
            ∧ (s.on_close code).2
                = [ClientEvent.onDisconnect,
                   ClientEvent.onReconnecting (s.reconnect_attempts + 1)
                     (min (s.reconnect_interval * (3 / 2 : ℚ) ^ s.reconnect_attempts) 30)]) := by
  unfold SysMedicClient.on_close
  by_cases hc : code = some 1000
  · rw [if_neg (by simp [hc])]
    refine ⟨?_, ?_, ?_, fun _ => ⟨?_, rfl⟩, fun hne _ => absurd hc hne⟩
    · rw [cleanup_connected]
    · exact cleanup_ping_timer _
    · exact cleanup_pong_timer _
    · rw [cleanup_liveReconnectTimers]
  · rw [if_pos hc]
    by_cases hlt : s.reconnect_attempts < s.max_reconnect_attempts
    · rw [schedule_reconnect_eq _
        (by rw [cleanup_reconnect_attempts, cleanup_max_reconnect_attempts]; exact hlt)]
      refine ⟨?_, ?_, ?_, fun h1000 => absurd h1000 hc, fun _ _ => ⟨?_, ?_⟩⟩
      · show ({ s with connected := false } : SysMedicClient).cleanup.connected = false
        rw [cleanup_connected]
      · exact cleanup_ping_timer _
      · exact cleanup_pong_timer _
      · show ({ s with connected := false } : SysMedicClient).cleanup.liveReconnectTimers
            ++ _ = _
        rw [cleanup_liveReconnectTimers, cleanup_nextTimerId,
          cleanup_reconnect_attempts, cleanup_reconnect_interval]
      · show [ClientEvent.onDisconnect, ClientEvent.onReconnecting _ _] = _
        rw [cleanup_reconnect_attempts, cleanup_reconnect_interval]
    · rw [schedule_reconnect_stop _
        (by rw [cleanup_reconnect_attempts, cleanup_max_reconnect_attempts]
            show s.max_reconnect_attempts ≤ s.reconnect_attempts
            omega)]
      refine ⟨?_, ?_, ?_, fun h1000 => absurd h1000 hc, fun _ hlt2 => absurd hlt2 hlt⟩
      · rw [cleanup_connected]
      · exact cleanup_ping_timer _
      · exact cleanup_pong_timer _

/-- C8 witness: a non-normal close (code 1006) from a freshly connected
default client fires on_disconnect and then on_reconnecting for attempt
1 with the base delay 5. -/
theorem c8_close_behaviour_witness :
    (SysMedicClient.on_close { connected := true } (some 1006)).2
      = [ClientEvent.onDisconnect, ClientEvent.onReconnecting 1 5] := by
  have h := ((c8_close_behaviour { connected := true } (some 1006)).2.2.2.2
    (by decide) (by decide)).2
  rw [h]
  norm_num

/-- C3 counterexample: a liveness probe is sent at time 0 and no pong
arrives afterwards (last_pong = 0); at time 11 the ack_timeout
(pong_timeout = 10) since the probe has expired, yet the heartbeat
check does not trigger a reconnect, because the code compares the time
since the last pong against pong_timeout + ping_interval = 40 and never
consults probe send times. -/
theorem c3_probe_timeout_cex :
    ({ connected := true } : SysMedicClient).last_pong ≤ 0
      ∧ (0 : ℚ) + ({ connected := true } : SysMedicClient).pong_timeout ≤ 11
      ∧ (SysMedicClient.check_pong_timeout { connected := true } 11).2 = false := by
  refine ⟨by norm_num, by norm_num, ?_⟩
  unfold SysMedicClient.check_pong_timeout
  norm_num

/-- C3 amended: while connected, the heartbeat check at time `now`
triggers a reconnect (leaving CONNECTED within that one tick) exactly
when more than pong_timeout + ping_interval time units have elapsed
since the last pong; the time since the last probe plays no role. -/
theorem c3_pong_check_threshold (s : SysMedicClient) (now : ℚ)
    (h : s.connected = true) :
    (s.check_pong_timeout now).2 = true
      ↔ s.pong_timeout + s.ping_interval < now - s.last_pong := by
  unfold SysMedicClient.check_pong_timeout
  rw [h]
  by_cases hcmp : s.pong_timeout + s.ping_interval < now - s.last_pong
  · simp [hcmp]
  · simp [hcmp]

/-- C3 witness: with the default thresholds (40 units) and last pong at
time 0, a check at time 100 does trigger the reconnect. -/
theorem c3_pong_check_threshold_witness :
    (SysMedicClient.check_pong_timeout { connected := true } 100).2 = true :=
  (c3_pong_check_threshold { connected := true } 100 rfl).mpr (by norm_num)

/-- C2 counterexample: the interactive client's close handler leaves a
pending request in the table (size 1, not 0) and delivers no rejection,
refuting reject-all-and-clear on connection loss. -/
theorem c2_pending_survive_close_cex :
    (SysMedicInteractiveClient.on_close
        { running := true,
          pending_requests := [("req_1_100", ⟨"ping", 100⟩)],
          request_counter := 1 } (some 1006)).1.pending_requests.length = 1
      ∧ (SysMedicInteractiveClient.on_close
        { running := true,
          pending_requests := [("req_1_100", ⟨"ping", 100⟩)],
          request_counter := 1 } (some 1006)).2 = [] :=
  ⟨rfl, rfl⟩

/-- C2 amended: on any connection close the interactive client only
clears its running flag; the pending-request table is left exactly as
it was and no pending request is rejected (none is ever rejected — the
entries silently outlive their connection). -/
theorem c2_on_close_leaves_pending (s : SysMedicInteractiveClient)
    (code : Option ℕ) :
    (s.on_close code).1.pending_requests = s.pending_requests
      ∧ (s.on_close code).2 = []
      ∧ (s.on_close code).1.running = false :=
  ⟨rfl, rfl, rfl⟩

/-- C5: a decoded inbound message whose (truthy) request_id matches a
pending request is consumed exclusively by the correlation path — the
entry is popped and the only delivery is the response display, no event
channel sees it; a message with no matching request_id leaves the table
untouched, never reaches the correlation path, and is delivered to the
channel of its declared type tag (in particular a system_update goes to
the system_update channel). -/
theorem c5_dispatch_routing (pending : List (String × RequestInfo)) (m : InMessage) :
    (∀ rid info, requestIdMatch pending m = some (rid, info) →
        handle_message pending m
          = (dictPop pending rid,
             [Delivery.correlator rid info.reqType (m.type.getD "unknown") m.data]))
      ∧ (requestIdMatch pending m = none →
          (handle_message pending m).1 = pending
            ∧ (∀ rid ty mt d,
                Delivery.correlator rid ty mt d ∉ (handle_message pending m).2)
            ∧ (m.type = some "system_update" →
                (handle_message pending m).2 = [Delivery.systemUpdateEv m.data])) := by
  constructor
  · intro rid info hmatch
    unfold handle_message
    rw [hmatch]
  · intro hnone
    obtain ⟨h1, h2⟩ := handle_message_no_match pending m hnone
    refine ⟨h1, h2, ?_⟩
    intro hsu
    unfold handle_message
    rw [hnone, hsu]
    rfl

/-- C5 witness: a pong response for the pending request req_1_5 is
routed to the correlator and empties the table; a system_update without
request_id goes to the system_update channel. -/
theorem c5_dispatch_routing_witness :
    handle_message [("req_1_5", ⟨"ping", 5⟩)]
        { type := some "pong", request_id := some "req_1_5", data := "ok" }
      = ([], [Delivery.correlator "req_1_5" "ping" "pong" "ok"])
      ∧ (handle_message [("req_1_5", ⟨"ping", 5⟩)]
          { type := some "system_update", request_id := none, data := "cpu" }).2
        = [Delivery.systemUpdateEv "cpu"] :=
  ⟨(c5_dispatch_routing [("req_1_5", ⟨"ping", 5⟩)]
      { type := some "pong", request_id := some "req_1_5", data := "ok" }).1
      "req_1_5" ⟨"ping", 5⟩ rfl,
   ((c5_dispatch_routing [("req_1_5", ⟨"ping", 5⟩)]
      { type := some "system_update", request_id := none, data := "cpu" }).2
      rfl).2.2 rfl⟩

/-- C6: resolving a pending request a second time is a no-op on the
correlator state: the first matching message pops the entry and yields
exactly one response delivery; handling the same message again leaves
the (already popped) pending table unchanged and produces no further
response delivery for that id. -/
theorem c6_second_resolve_noop (pending : List (String × RequestInfo))
    (m : InMessage) (rid : String) (info : RequestInfo)
    (hnd : (pending.map Prod.fst).Nodup)
    (hmatch : requestIdMatch pending m = some (rid, info)) :
    (handle_message pending m).1 = dictPop pending rid
      ∧ (handle_message pending m).2
          = [Delivery.correlator rid info.reqType (m.type.getD "unknown") m.data]
      ∧ (handle_message (handle_message pending m).1 m).1
          = (handle_message pending m).1
      ∧ ∀ ty mt d, Delivery.correlator rid ty mt d
          ∉ (handle_message (handle_message pending m).1 m).2 := by
  obtain ⟨hid, hne, hget⟩ := requestIdMatch_eq_some pending m rid info hmatch
  have hfirst : handle_message pending m
      = (dictPop pending rid,
         [Delivery.correlator rid info.reqType (m.type.getD "unknown") m.data]) := by
    unfold handle_message
    rw [hmatch]
  have hgone : dictGet (dictPop pending rid) rid = none := dictGet_dictPop pending rid hnd
  have hnone : requestIdMatch (dictPop pending rid) m = none := by
    unfold requestIdMatch
    rw [hid]
    dsimp only
    rw [if_neg hne, hgone]
  obtain ⟨hsame, hnocorr⟩ := handle_message_no_match (dictPop pending rid) m hnone
  rw [hfirst]
  exact ⟨rfl, rfl, hsame, fun ty mt d => hnocorr rid ty mt d⟩

/-- C6 witness: after the pong for req_1_5 resolves the pending entry,
re-handling the same pong leaves the now-empty table unchanged. -/
theorem c6_second_resolve_noop_witness :
    (handle_message
        (handle_message [("req_1_5", ⟨"ping", 5⟩)]
            { type := some "pong", request_id := some "req_1_5", data := "ok" }).1
        { type := some "pong", request_id := some "req_1_5", data := "ok" }).1
      = (handle_message [("req_1_5", ⟨"ping", 5⟩)]
          { type := some "pong", request_id := some "req_1_5", data := "ok" }).1 :=
  (c6_second_resolve_noop [("req_1_5", ⟨"ping", 5⟩)]
      { type := some "pong", request_id := some "req_1_5", data := "ok" }
      "req_1_5" ⟨"ping", 5⟩ (by decide) rfl).2.2.1

/-- C9: request ids generated at different values of the strictly
increasing request counter are distinct strings, whatever the two
timestamps are — so no two pending requests of one connection lifetime
can share an id. -/
theorem c9_request_ids_distinct (s1 s2 : SysMedicInteractiveClient) (t1 t2 : ℕ)
    (h : s1.request_counter ≠ s2.request_counter) :
    (s1.generate_request_id t1).2 ≠ (s2.generate_request_id t2).2 := by
  intro he
  apply h
  unfold SysMedicInteractiveClient.generate_request_id at he
  dsimp only at he
  have h1 := extract_reqId (s1.request_counter + 1) t1
  have h2 := extract_reqId (s2.request_counter + 1) t2
  have := congrArg extractCounter he
  rw [h1, h2] at this
  omega

/-- C9 witness: the ids generated at counters 0 and 1 with the same
timestamp differ (req_1_100 vs req_2_100). -/
theorem c9_request_ids_distinct_witness :
    (SysMedicInteractiveClient.generate_request_id
        { running := true, pending_requests := [], request_counter := 0 } 100).2
      ≠ (SysMedicInteractiveClient.generate_request_id
        { running := true, pending_requests := [], request_counter := 1 } 100).2 :=
  c9_request_ids_distinct _ _ 100 100 (by decide)

/-- C10: add_metrics preserves the bound of at most 10 history entries,
and from a full history of 10 the oldest entry is discarded first
(FIFO) when the 11th is appended. -/
theorem c10_history_bounded (t : MetricsTracker) (now : ℚ) (data : String)
    (h : t.metrics_history.length ≤ 10) :
    (t.add_metrics now data).metrics_history.length ≤ 10
      ∧ (t.metrics_history.length = 10 →
          (t.add_metrics now data).metrics_history
            = t.metrics_history.tail ++ [⟨now, data⟩]) := by
  unfold MetricsTracker.add_metrics
  constructor
  · dsimp only
    by_cases hl : 10 < (t.metrics_history ++ [(⟨now, data⟩ : MetricsEntry)]).length
    · rw [if_pos hl]
      rw [List.length_drop]
      rw [List.length_append] at hl ⊢
      simp only [List.length_singleton] at hl ⊢
      omega
    · rw [if_neg hl]
      rw [List.length_append] at hl ⊢
      simp only [List.length_singleton] at hl ⊢
      omega
  · intro h10
    dsimp only
    rw [if_pos (by rw [List.length_append]; simp [h10])]
    cases hh : t.metrics_history with
    | nil => rw [hh] at h10; exact absurd h10 (by simp)
    | cons a rest => simp

/-- C10 witness: adding to a one-entry history keeps the bound. -/
theorem c10_history_bounded_witness :
    (MetricsTracker.add_metrics
        { metrics_history := [⟨0, "m0"⟩], last_update := some 0 }
        1 "m1").metrics_history.length ≤ 10 :=
  (c10_history_bounded { metrics_history := [⟨0, "m0"⟩], last_update := some 0 }
      1 "m1" (by decide)).1
